import Mathlib

/-!
Verification of the balance-projection calculators of the Financial_Matrix
repository.

The repository holds two variants of one function, `generate_graph`:
the two-input variant in `Financial_Matrix.py` and the inflation-aware
variant in `Hover_Template_1.py`.  Each parses text inputs, validates them,
builds a rate/year grid and computes a compound-interest balance surface.

Embedding conventions:
* Python floats are modelled by `ℚ`; text fields that may fail to parse are
  modelled by `Option ℚ` / `Option ℤ` (`none` = parse failure).
* numpy elementwise division is `fdiv`: in the code the only zero
  denominator (`R = 0` in `Financial_Matrix.py`) comes with a zero
  numerator, so the float result is NaN; `none` models that non-finite
  value, and it propagates through the surrounding `+`/`*` as NaN does.
* `ValueError` caught and shown as an "Input Error" box is the error value
  `GGError.inputError`; producing the surface is returning `Except.ok` with
  the grid(s).  The plotting/GUI shell is out of scope, per the spec.
-/

/-- Python int() applied to a rational: truncation toward zero. -/
def pyInt (q : ℚ) : ℤ := if 0 ≤ q then ⌊q⌋ else ⌈q⌉

/-- Elementwise float division as numpy performs it on these grids: a zero
denominator (always paired with a zero numerator in this code) produces NaN,
modelled as none. -/
def fdiv (x y : ℚ) : Option ℚ := if y = 0 then none else some (x / y)

/-- Integer arange: the list a, a+1, ..., b-1 (empty when b ≤ a). -/
def arange (a b : ℤ) : List ℤ :=
  (List.range (b - a).toNat).map (fun i : ℕ => a + (i : ℤ))

/-- Error outcome of generate_graph: an invalid input surfaced as an
"Input Error" message box. -/
inductive GGError
  | inputError
deriving DecidableEq

namespace Financial_Matrix

/-- One cell of the balance surface of the two-input variant, line 31 of
Financial_Matrix.py:
A = principal * (1 + R)**T + annual_contribution * ((1 + R)**T - 1) / R.
The division is by R itself (no epsilon, no special case), so at R = 0 the
contribution term is 0/0 = NaN and the whole cell is NaN (none). -/
def cellA (principal annual_contribution R : ℚ) (T : ℤ) : Option ℚ :=
  (fdiv ((1 + R) ^ T - 1) R).map
    (fun q => principal * (1 + R) ^ T + annual_contribution * q)

/-- generate_graph of Financial_Matrix.py, lines 7-31: parse the six text
fields, validate, build the year and rate axes and the balance grid
(rows indexed by rate, columns by year). -/
def generate_graph (principal annual_contribution min_rate max_rate : Option ℚ)
    (start_time end_time : Option ℤ) :
    Except GGError (List (List (Option ℚ))) :=
  match principal, annual_contribution, min_rate, max_rate, start_time, end_time with
  | some p, some ac, some mnP, some mxP, some st, some et =>
    let mn := mnP / 100
    let mx := mxP / 100
    if mn < 0 ∨ mx < 0 then .error .inputError
    else if st < 0 ∨ et < 0 ∨ st ≥ et then .error .inputError
    else
      let t := arange st (et + 1)
      let r := (arange (pyInt (mn * 100)) (pyInt (mx * 100) + 1)).map
        (fun k : ℤ => (k : ℚ) / 100)
      .ok (r.map (fun R => t.map (fun T => cellA p ac R T)))
  | _, _, _, _, _, _ => .error .inputError

end Financial_Matrix

namespace Hover_Template_1

/-- Python round to the nearest integer, halves to the even neighbour. -/
def pyRound (q : ℚ) : ℤ :=
  if q - ⌊q⌋ < 1 / 2 then ⌊q⌋
  else if 1 / 2 < q - ⌊q⌋ then ⌊q⌋ + 1
  else if Even ⌊q⌋ then ⌊q⌋ else ⌊q⌋ + 1

/-- Python round(x, 2): round to 2 decimal digits. -/
def pyRound2 (q : ℚ) : ℚ := (pyRound (q * 100) : ℚ) / 100

/-- Small value added to the denominator in the nonzero-rate branch,
line 38 of Hover_Template_1.py. -/
def epsilon : ℚ := 1 / 10 ^ 10

/-- One cell of the nominal balance surface of the inflation-aware variant,
lines 39-43 of Hover_Template_1.py: np.where branches on R == 0; the zero
branch is exact, the nonzero branch divides by R + epsilon. -/
def cellA_nominal (principal annual_contribution R : ℚ) (T : ℤ) : ℚ :=
  if R = 0 then principal + annual_contribution * T
  else principal * (1 + R) ^ T +
    annual_contribution * ((1 + R) ^ T - 1) / (R + epsilon)

/-- One cell of the real (inflation-adjusted) surface, line 46:
real_A = A_nominal / (1 + inflation_rate)**T. -/
def real_cell (a infl : ℚ) (T : ℤ) : ℚ := a / (1 + infl) ^ T

/-- generate_graph of Hover_Template_1.py, lines 6-46: parse the seven text
fields (the inflation percentage is rounded to 2 decimals before dividing
by 100), validate, build the axes and both balance grids. -/
def generate_graph (principal annual_contribution min_rate max_rate : Option ℚ)
    (start_time end_time : Option ℤ) (inflation_rate : Option ℚ) :
    Except GGError (List (List ℚ) × List (List ℚ)) :=
  match principal, annual_contribution, min_rate, max_rate, start_time,
      end_time, inflation_rate with
  | some p, some ac, some mnP, some mxP, some st, some et, some inflP =>
    let mn := mnP / 100
    let mx := mxP / 100
    let infl := pyRound2 inflP / 100
    if mn < 0 ∨ mx < 0 then .error .inputError
    else if st < 0 ∨ et < 0 ∨ st ≥ et then .error .inputError
    else if infl < 0 then .error .inputError
    else
      let t := arange st (et + 1)
      let r_vals := (arange (pyInt (mn * 100)) (pyInt (mx * 100) + 1)).map
        (fun k : ℤ => (k : ℚ) / 100)
      let A_nominal := r_vals.map (fun R => t.map (fun T => cellA_nominal p ac R T))
      let real_A := r_vals.map
        (fun R => t.map (fun T => real_cell (cellA_nominal p ac R T) infl T))
      .ok (A_nominal, real_A)
  | _, _, _, _, _, _, _ => .error .inputError

end Hover_Template_1

/-! ### Helper lemmas shared by the claim theorems -/

lemma pyInt_eq_floor {q : ℚ} (h : 0 ≤ q) : pyInt q = ⌊q⌋ := if_pos h

lemma arange_length (a b : ℤ) : (arange a b).length = (b - a).toNat := by
  rw [arange, List.length_map, List.length_range]

lemma arange_getElem? {a b : ℤ} {i : ℕ} (h : (i : ℤ) < b - a) :
    (arange a b)[i]? = some (a + i) := by
  have hi : i < (b - a).toNat := by omega
  rw [arange, List.getElem?_map, List.getElem?_range hi]
  rfl

lemma arange_getElem?_none {a b : ℤ} {i : ℕ} (h : b - a ≤ (i : ℤ)) :
    (arange a b)[i]? = none := by
  apply List.getElem?_eq_none
  rw [arange_length]
  omega

lemma div100_mul100 (q : ℚ) : q / 100 * 100 = q :=
  div_mul_cancel₀ _ (by norm_num)

/-- On validated inputs the two-input variant returns the grid, in explicit
map form. -/
lemma FM_ok (p ac mnP mxP : ℚ) (st et : ℤ)
    (hmn : 0 ≤ mnP) (hmx : 0 ≤ mxP) (hst : 0 ≤ st) (hlt : st < et) :
    Financial_Matrix.generate_graph (some p) (some ac) (some mnP) (some mxP)
        (some st) (some et) =
      .ok (((arange ⌊mnP⌋ (⌊mxP⌋ + 1)).map (fun k : ℤ => (k : ℚ) / 100)).map
        (fun R => (arange st (et + 1)).map
          (fun T => Financial_Matrix.cellA p ac R T))) := by
  have h1 : ¬(mnP / 100 < 0 ∨ mxP / 100 < 0) := by
    push_neg
    exact ⟨div_nonneg hmn (by norm_num), div_nonneg hmx (by norm_num)⟩
  have h2 : ¬(st < 0 ∨ et < 0 ∨ st ≥ et) := by omega
  simp only [Financial_Matrix.generate_graph, h1, h2, if_false,
    div100_mul100, pyInt_eq_floor hmn, pyInt_eq_floor hmx]

/-- On validated inputs the inflation-aware variant returns both grids, in
explicit map form. -/
lemma HT_ok (p ac mnP mxP inflP : ℚ) (st et : ℤ)
    (hmn : 0 ≤ mnP) (hmx : 0 ≤ mxP) (hst : 0 ≤ st) (hlt : st < et)
    (hinfl : 0 ≤ Hover_Template_1.pyRound2 inflP) :
    Hover_Template_1.generate_graph (some p) (some ac) (some mnP) (some mxP)
        (some st) (some et) (some inflP) =
      .ok
        (((arange ⌊mnP⌋ (⌊mxP⌋ + 1)).map (fun k : ℤ => (k : ℚ) / 100)).map
          (fun R => (arange st (et + 1)).map
            (fun T => Hover_Template_1.cellA_nominal p ac R T)),
        ((arange ⌊mnP⌋ (⌊mxP⌋ + 1)).map (fun k : ℤ => (k : ℚ) / 100)).map
          (fun R => (arange st (et + 1)).map
            (fun T => Hover_Template_1.real_cell
              (Hover_Template_1.cellA_nominal p ac R T)
              (Hover_Template_1.pyRound2 inflP / 100) T))) := by
  have h1 : ¬(mnP / 100 < 0 ∨ mxP / 100 < 0) := by
    push_neg
    exact ⟨div_nonneg hmn (by norm_num), div_nonneg hmx (by norm_num)⟩
  have h2 : ¬(st < 0 ∨ et < 0 ∨ st ≥ et) := by omega
  have h3 : ¬(Hover_Template_1.pyRound2 inflP / 100 < 0) := by
    push_neg
    exact div_nonneg hinfl (by norm_num)
  simp only [Hover_Template_1.generate_graph, h1, h2, h3, if_false,
    div100_mul100, pyInt_eq_floor hmn, pyInt_eq_floor hmx]

/-! ### Claim theorems -/

/-- C10: each variant's calculation is deterministic and side-effect-free:
two runs on equal inputs produce equal results (equal grids on valid input,
equal errors on invalid input).  In this pure embedding the absence of
mutation and external state is structural, and determinism is function
application. -/
theorem C10_deterministic (pS acS mnS mxS inflS pS' acS' mnS' mxS' inflS' : Option ℚ)
    (stS etS stS' etS' : Option ℤ)
    (h : pS = pS' ∧ acS = acS' ∧ mnS = mnS' ∧ mxS = mxS' ∧ stS = stS' ∧
      etS = etS' ∧ inflS = inflS') :
    Financial_Matrix.generate_graph pS acS mnS mxS stS etS =
      Financial_Matrix.generate_graph pS' acS' mnS' mxS' stS' etS' ∧
    Hover_Template_1.generate_graph pS acS mnS mxS stS etS inflS =
      Hover_Template_1.generate_graph pS' acS' mnS' mxS' stS' etS' inflS' := by
  obtain ⟨rfl, rfl, rfl, rfl, rfl, rfl, rfl⟩ := h
  exact ⟨rfl, rfl⟩

/-- Witness for C10 at the form's default inputs. -/
theorem C10_deterministic_witness :
    (some (1000 : ℚ) = some 1000 ∧ some (500 : ℚ) = some 500 ∧
      some (0 : ℚ) = some 0 ∧ some (15 : ℚ) = some 15 ∧
      some (0 : ℤ) = some 0 ∧ some (30 : ℤ) = some 30 ∧
      some (33 / 10 : ℚ) = some (33 / 10)) ∧
    (Financial_Matrix.generate_graph (some 1000) (some 500) (some 0) (some 15)
        (some 0) (some 30) =
      Financial_Matrix.generate_graph (some 1000) (some 500) (some 0) (some 15)
        (some 0) (some 30) ∧
    Hover_Template_1.generate_graph (some 1000) (some 500) (some 0) (some 15)
        (some 0) (some 30) (some (33 / 10)) =
      Hover_Template_1.generate_graph (some 1000) (some 500) (some 0) (some 15)
        (some 0) (some 30) (some (33 / 10))) :=
  ⟨⟨rfl, rfl, rfl, rfl, rfl, rfl, rfl⟩,
    C10_deterministic (some 1000) (some 500) (some 0) (some 15) (some (33 / 10))
      (some 1000) (some 500) (some 0) (some 15) (some (33 / 10))
      (some 0) (some 30) (some 0) (some 30)
      ⟨rfl, rfl, rfl, rfl, rfl, rfl, rfl⟩⟩

/-- On fully parsed inputs the two-input variant errors exactly when a
validation check fires. -/
lemma FM_error_iff (p ac mn mx : ℚ) (st et : ℤ) :
    Financial_Matrix.generate_graph (some p) (some ac) (some mn) (some mx)
        (some st) (some et) = .error .inputError ↔
      (mn / 100 < 0 ∨ mx / 100 < 0) ∨ (st < 0 ∨ et < 0 ∨ st ≥ et) := by
  simp only [Financial_Matrix.generate_graph]
  split_ifs with h1 h2
  · exact iff_of_true rfl (Or.inl h1)
  · exact iff_of_true rfl (Or.inr h2)
  · exact iff_of_false (fun h => h) (by tauto)

/-- On fully parsed inputs the inflation-aware variant errors exactly when a
validation check fires. -/
lemma HT_error_iff (p ac mn mx infl : ℚ) (st et : ℤ) :
    Hover_Template_1.generate_graph (some p) (some ac) (some mn) (some mx)
        (some st) (some et) (some infl) = .error .inputError ↔
      (mn / 100 < 0 ∨ mx / 100 < 0) ∨ (st < 0 ∨ et < 0 ∨ st ≥ et) ∨
        Hover_Template_1.pyRound2 infl / 100 < 0 := by
  simp only [Hover_Template_1.generate_graph]
  split_ifs with h1 h2 h3
  · exact iff_of_true rfl (Or.inl h1)
  · exact iff_of_true rfl (Or.inr (Or.inl h2))
  · exact iff_of_true rfl (Or.inr (Or.inr h3))
  · exact iff_of_false (fun h => h) (by tauto)

set_option maxHeartbeats 2000000 in
/-- C4: each variant fails with InputError exactly when some field fails to
parse as a number (years as integers), a rate fraction after division by 100
is negative, a year is negative, startYear ≥ endYear, or (inflation-aware
variant) the inflation fraction is negative; an error outcome carries no
grid. -/
theorem C4_input_error_iff (pS acS mnS mxS inflS : Option ℚ) (stS etS : Option ℤ) :
    (Financial_Matrix.generate_graph pS acS mnS mxS stS etS =
        .error .inputError ↔
      pS = none ∨ acS = none ∨ mnS = none ∨ mxS = none ∨ stS = none ∨
        etS = none ∨
        (∃ mn, mnS = some mn ∧ mn / 100 < 0) ∨
        (∃ mx, mxS = some mx ∧ mx / 100 < 0) ∨
        (∃ st, stS = some st ∧ st < 0) ∨ (∃ et, etS = some et ∧ et < 0) ∨
        (∃ st et, stS = some st ∧ etS = some et ∧ st ≥ et)) ∧
    (Hover_Template_1.generate_graph pS acS mnS mxS stS etS inflS =
        .error .inputError ↔
      pS = none ∨ acS = none ∨ mnS = none ∨ mxS = none ∨ stS = none ∨
        etS = none ∨ inflS = none ∨
        (∃ mn, mnS = some mn ∧ mn / 100 < 0) ∨
        (∃ mx, mxS = some mx ∧ mx / 100 < 0) ∨
        (∃ st, stS = some st ∧ st < 0) ∨ (∃ et, etS = some et ∧ et < 0) ∨
        (∃ st et, stS = some st ∧ etS = some et ∧ st ≥ et) ∨
        (∃ q, inflS = some q ∧ Hover_Template_1.pyRound2 q / 100 < 0)) ∧
    Financial_Matrix.generate_graph (some 1000) (some 500) (some (-1))
      (some 15) (some 0) (some 30) = .error .inputError ∧
    Financial_Matrix.generate_graph (some 1000) (some 500) (some 0) (some 15)
      (some 5) (some 5) = .error .inputError := by
  refine ⟨?_, ?_, by rw [FM_error_iff]; norm_num, by rw [FM_error_iff]; norm_num⟩
  · rcases pS with _ | p <;> rcases acS with _ | ac <;> rcases mnS with _ | mn <;>
      rcases mxS with _ | mx <;> rcases stS with _ | st <;> rcases etS with _ | et <;>
      first
        | (rw [FM_error_iff]; simp; try tauto)
        | exact iff_of_true rfl (by simp)
  · rcases pS with _ | p <;> rcases acS with _ | ac <;> rcases mnS with _ | mn <;>
      rcases mxS with _ | mx <;> rcases stS with _ | st <;> rcases etS with _ | et <;>
      rcases inflS with _ | infl <;>
      first
        | (rw [HT_error_iff]; simp; try tauto)
        | exact iff_of_true rfl (by simp)

/-- C5: on a valid input with minRatePercent ≤ maxRatePercent, the balance
grid of each variant (and the real grid of the inflation-aware variant) has
floor(maxRatePercent) − floor(minRatePercent) + 1 rows and
endYear − startYear + 1 columns. -/
theorem C5_grid_shape (p ac mnP mxP inflP : ℚ) (st et : ℤ)
    (hmn : 0 ≤ mnP) (hmx : 0 ≤ mxP) (hmm : mnP ≤ mxP) (hst : 0 ≤ st)
    (hlt : st < et) (hinfl : 0 ≤ Hover_Template_1.pyRound2 inflP) :
    ∃ g nom re,
      Financial_Matrix.generate_graph (some p) (some ac) (some mnP) (some mxP)
          (some st) (some et) = .ok g ∧
      Hover_Template_1.generate_graph (some p) (some ac) (some mnP) (some mxP)
          (some st) (some et) (some inflP) = .ok (nom, re) ∧
      (g.length : ℤ) = ⌊mxP⌋ - ⌊mnP⌋ + 1 ∧
      (nom.length : ℤ) = ⌊mxP⌋ - ⌊mnP⌋ + 1 ∧
      (re.length : ℤ) = ⌊mxP⌋ - ⌊mnP⌋ + 1 ∧
      (∀ row ∈ g, (row.length : ℤ) = et - st + 1) ∧
      (∀ row ∈ nom, (row.length : ℤ) = et - st + 1) ∧
      (∀ row ∈ re, (row.length : ℤ) = et - st + 1) := by
  have hfl : ⌊mnP⌋ ≤ ⌊mxP⌋ := Int.floor_le_floor hmm
  refine ⟨_, _, _, FM_ok p ac mnP mxP st et hmn hmx hst hlt,
    HT_ok p ac mnP mxP inflP st et hmn hmx hst hlt hinfl, ?_, ?_, ?_, ?_, ?_, ?_⟩
  · simp only [List.length_map, arange_length]; omega
  · simp only [List.length_map, arange_length]; omega
  · simp only [List.length_map, arange_length]; omega
  · intro row hrow
    obtain ⟨R, -, rfl⟩ := List.mem_map.1 hrow
    simp only [List.length_map, arange_length]; omega
  · intro row hrow
    obtain ⟨R, -, rfl⟩ := List.mem_map.1 hrow
    simp only [List.length_map, arange_length]; omega
  · intro row hrow
    obtain ⟨R, -, rfl⟩ := List.mem_map.1 hrow
    simp only [List.length_map, arange_length]; omega

/-- Witness for C5 at the form's default inputs. -/
theorem C5_grid_shape_witness :
    ((0:ℚ) ≤ 0 ∧ (0:ℚ) ≤ 15 ∧ (0:ℚ) ≤ (15:ℚ) ∧ (0:ℤ) ≤ 0 ∧ (0:ℤ) < 30 ∧
      (0:ℚ) ≤ Hover_Template_1.pyRound2 (33 / 10)) ∧
    (∃ g nom re,
      Financial_Matrix.generate_graph (some 1000) (some 500) (some 0) (some 15)
          (some 0) (some 30) = .ok g ∧
      Hover_Template_1.generate_graph (some 1000) (some 500) (some 0) (some 15)
          (some 0) (some 30) (some (33 / 10)) = .ok (nom, re) ∧
      (g.length : ℤ) = ⌊(15:ℚ)⌋ - ⌊(0:ℚ)⌋ + 1 ∧
      (nom.length : ℤ) = ⌊(15:ℚ)⌋ - ⌊(0:ℚ)⌋ + 1 ∧
      (re.length : ℤ) = ⌊(15:ℚ)⌋ - ⌊(0:ℚ)⌋ + 1 ∧
      (∀ row ∈ g, (row.length : ℤ) = 30 - 0 + 1) ∧
      (∀ row ∈ nom, (row.length : ℤ) = 30 - 0 + 1) ∧
      (∀ row ∈ re, (row.length : ℤ) = 30 - 0 + 1)) :=
  ⟨⟨by norm_num, by norm_num, by norm_num, by decide, by decide,
      by norm_num [Hover_Template_1.pyRound2, Hover_Template_1.pyRound]⟩,
    C5_grid_shape 1000 500 0 15 (33 / 10) 0 30 (by norm_num) (by norm_num)
      (by norm_num) (by decide) (by decide)
      (by norm_num [Hover_Template_1.pyRound2, Hover_Template_1.pyRound])⟩

/-- C9: when the inputs parse and pass validation but
floor(minRatePercent) > floor(maxRatePercent), no InputError is raised: the
rate sequence is empty and each variant completes with a zero-row grid. -/
theorem C9_empty_rate_range (p ac mnP mxP inflP : ℚ) (st et : ℤ)
    (hmn : 0 ≤ mnP) (hmx : 0 ≤ mxP) (hst : 0 ≤ st) (hlt : st < et)
    (hinfl : 0 ≤ Hover_Template_1.pyRound2 inflP)
    (hfl : ⌊mxP⌋ < ⌊mnP⌋) :
    Financial_Matrix.generate_graph (some p) (some ac) (some mnP) (some mxP)
        (some st) (some et) = .ok [] ∧
    Hover_Template_1.generate_graph (some p) (some ac) (some mnP) (some mxP)
        (some st) (some et) (some inflP) = .ok ([], []) := by
  have harr : arange ⌊mnP⌋ (⌊mxP⌋ + 1) = [] := by
    have h0 : (⌊mxP⌋ + 1 - ⌊mnP⌋).toNat = 0 := by omega
    rw [arange, h0]
    rfl
  rw [FM_ok p ac mnP mxP st et hmn hmx hst hlt,
    HT_ok p ac mnP mxP inflP st et hmn hmx hst hlt hinfl, harr]
  exact ⟨rfl, rfl⟩

/-- Witness for C9: min 2.5 percent, max 1.2 percent. -/
theorem C9_empty_rate_range_witness :
    ((0:ℚ) ≤ 5/2 ∧ (0:ℚ) ≤ 6/5 ∧ (0:ℤ) ≤ 0 ∧ (0:ℤ) < 1 ∧
      (0:ℚ) ≤ Hover_Template_1.pyRound2 0 ∧ ⌊(6/5 : ℚ)⌋ < ⌊(5/2 : ℚ)⌋) ∧
    (Financial_Matrix.generate_graph (some 1000) (some 500) (some (5/2))
        (some (6/5)) (some 0) (some 1) = .ok [] ∧
    Hover_Template_1.generate_graph (some 1000) (some 500) (some (5/2))
        (some (6/5)) (some 0) (some 1) (some 0) = .ok ([], [])) :=
  ⟨⟨by norm_num, by norm_num, by decide, by decide,
      by norm_num [Hover_Template_1.pyRound2, Hover_Template_1.pyRound],
      by rw [show ⌊(6/5 : ℚ)⌋ = 1 by norm_num [Int.floor_eq_iff],
        show ⌊(5/2 : ℚ)⌋ = 2 by norm_num [Int.floor_eq_iff]]; decide⟩,
    C9_empty_rate_range 1000 500 (5/2) (6/5) 0 0 1 (by norm_num) (by norm_num)
      (by decide) (by decide)
      (by norm_num [Hover_Template_1.pyRound2, Hover_Template_1.pyRound])
      (by rw [show ⌊(6/5 : ℚ)⌋ = 1 by norm_num [Int.floor_eq_iff],
        show ⌊(5/2 : ℚ)⌋ = 2 by norm_num [Int.floor_eq_iff]]; decide)⟩

/-- Cell lookup in a rate-by-year grid built as a map over the rate axis of
maps over the year axis. -/
lemma grid_getElem? {α : Type} (f : ℚ → ℤ → α) (lo hi a b : ℤ) (i j : ℕ) :
    ((((arange lo hi).map (fun k : ℤ => (k : ℚ) / 100)).map
        (fun R => (arange a b).map (fun T => f R T)))[i]?.bind
      (fun row => row[j]?)) =
      if (i : ℤ) < hi - lo ∧ (j : ℤ) < b - a then
        some (f (((lo + (i : ℤ) : ℤ)) / 100 : ℚ) (a + (j : ℤ)))
      else none := by
  by_cases hi1 : (i : ℤ) < hi - lo
  · rw [List.getElem?_map, List.getElem?_map, arange_getElem? hi1]
    by_cases hj1 : (j : ℤ) < b - a
    · rw [if_pos ⟨hi1, hj1⟩]
      show ((arange a b).map (fun T => f _ T))[j]? = _
      rw [List.getElem?_map, arange_getElem? hj1]
      rfl
    · rw [if_neg (fun h => hj1 h.2)]
      show ((arange a b).map (fun T => f _ T))[j]? = _
      rw [List.getElem?_map,
        arange_getElem?_none (by omega : b - a ≤ (j : ℤ))]
      rfl
  · rw [List.getElem?_map, List.getElem?_map,
      arange_getElem?_none (by omega : hi - lo ≤ (i : ℤ)),
      if_neg (fun h => hi1 h.1)]
    rfl

/-- Formula the claim attributes to the two-input variant, stated from the
claim for refutation: a 1e-10 epsilon added to the denominator for all
cells, with no special case at R = 0. -/
def claimed_epsilon_balance (principal annual_contribution R : ℚ) (T : ℤ) : ℚ :=
  principal * (1 + R) ^ T +
    annual_contribution * ((1 + R) ^ T - 1) / (R + 1 / 10 ^ 10)

/-- C1 counterexample: with principal 0, contribution 1, rate row 10
percent, years 0..1, the two-input variant computes cell (0,1) as exactly 1
(the denominator is R itself, no epsilon), while the formula asserted by the
claim yields a value different from 1; and with the rate row at 0 percent
the code cells are NaN (none), not finite values. -/
theorem C1_counterexample :
    Financial_Matrix.generate_graph (some 0) (some 1) (some 10) (some 10)
        (some 0) (some 1) = .ok [[some 0, some 1]] ∧
    claimed_epsilon_balance 0 1 (10 / 100) 1 ≠ 1 ∧
    Financial_Matrix.generate_graph (some 1000) (some 500) (some 0) (some 0)
        (some 0) (some 1) = .ok [[none, none]] := by
  refine ⟨?_, ?_, ?_⟩
  · norm_num [Financial_Matrix.generate_graph, arange, pyInt,
      Financial_Matrix.cellA, fdiv, List.range_succ, zpow_natCast,
      show ((2 : ℤ)).toNat = 2 from rfl, show ((1 : ℤ)).toNat = 1 from rfl]
  · norm_num [claimed_epsilon_balance]
  · norm_num [Financial_Matrix.generate_graph, arange, pyInt,
      Financial_Matrix.cellA, fdiv, List.range_succ, zpow_natCast,
      show ((2 : ℤ)).toNat = 2 from rfl, show ((1 : ℤ)).toNat = 1 from rfl]

/-- C1 (amended): on every valid input the two-input variant computes each
nominal cell as principal*(1+R)^T + annualContribution*((1+R)^T − 1)/R,
dividing by R itself — no epsilon is added and there is no special case for
R = 0, so every cell on a zero-rate row is NaN (0/0), not a finite value
near principal + annualContribution*T. -/
theorem C1_no_epsilon_plain_denominator (p ac mnP mxP : ℚ) (st et : ℤ)
    (hmn : 0 ≤ mnP) (hmx : 0 ≤ mxP) (hst : 0 ≤ st) (hlt : st < et) :
    ∃ g, Financial_Matrix.generate_graph (some p) (some ac) (some mnP)
        (some mxP) (some st) (some et) = .ok g ∧
      ∀ i j : ℕ, (i : ℤ) ≤ ⌊mxP⌋ - ⌊mnP⌋ → (j : ℤ) ≤ et - st →
        g[i]?.bind (fun row => row[j]?) =
          some (if ((⌊mnP⌋ + (i : ℤ) : ℤ) / 100 : ℚ) = 0 then none
            else some (p * (1 + ((⌊mnP⌋ + (i : ℤ) : ℤ) / 100 : ℚ)) ^ (st + (j : ℤ)) +
              ac * ((1 + ((⌊mnP⌋ + (i : ℤ) : ℤ) / 100 : ℚ)) ^ (st + (j : ℤ)) - 1) /
                ((⌊mnP⌋ + (i : ℤ) : ℤ) / 100 : ℚ))) := by
  refine ⟨_, FM_ok p ac mnP mxP st et hmn hmx hst hlt, ?_⟩
  intro i j hij hjj
  rw [grid_getElem? (Financial_Matrix.cellA p ac) ⌊mnP⌋ (⌊mxP⌋ + 1) st (et + 1),
    if_pos ⟨by omega, by omega⟩, Financial_Matrix.cellA, fdiv]
  by_cases hR : ((⌊mnP⌋ + (i : ℤ) : ℤ) / 100 : ℚ) = 0
  · rw [if_pos hR, if_pos hR]
    rfl
  · rw [if_neg hR, if_neg hR, Option.map_some', mul_div_assoc]

/-- Witness for C1 (amended) at contribution 500 over a rate range
containing zero. -/
theorem C1_no_epsilon_plain_denominator_witness :
    ((0 : ℚ) ≤ 0 ∧ (0 : ℚ) ≤ 1 ∧ (0 : ℤ) ≤ 0 ∧ (0 : ℤ) < 1) ∧
    (∃ g, Financial_Matrix.generate_graph (some 1000) (some 500) (some 0)
        (some 1) (some 0) (some 1) = .ok g ∧
      ∀ i j : ℕ, (i : ℤ) ≤ ⌊(1 : ℚ)⌋ - ⌊(0 : ℚ)⌋ → (j : ℤ) ≤ 1 - 0 →
        g[i]?.bind (fun row => row[j]?) =
          some (if ((⌊(0 : ℚ)⌋ + (i : ℤ) : ℤ) / 100 : ℚ) = 0 then none
            else some (1000 * (1 + ((⌊(0 : ℚ)⌋ + (i : ℤ) : ℤ) / 100 : ℚ)) ^ ((0 : ℤ) + (j : ℤ)) +
              500 * ((1 + ((⌊(0 : ℚ)⌋ + (i : ℤ) : ℤ) / 100 : ℚ)) ^ ((0 : ℤ) + (j : ℤ)) - 1) /
                ((⌊(0 : ℚ)⌋ + (i : ℤ) : ℤ) / 100 : ℚ)))) :=
  ⟨⟨by norm_num, by norm_num, by decide, by decide⟩,
    C1_no_epsilon_plain_denominator 1000 500 0 1 0 1 (by norm_num) (by norm_num)
      (by decide) (by decide)⟩

/-- C2: on every valid input the inflation-aware variant branches per cell
on R = 0: a zero-rate cell is exactly principal + annualContribution*T, and
a nonzero-rate cell is principal*(1+R)^T + annualContribution*((1+R)^T − 1)
divided by the rate denominator R + 1e-10. -/
theorem C2_explicit_zero_rate_branch (p ac mnP mxP inflP : ℚ) (st et : ℤ)
    (hmn : 0 ≤ mnP) (hmx : 0 ≤ mxP) (hst : 0 ≤ st) (hlt : st < et)
    (hinfl : 0 ≤ Hover_Template_1.pyRound2 inflP) :
    ∃ nom re, Hover_Template_1.generate_graph (some p) (some ac) (some mnP)
        (some mxP) (some st) (some et) (some inflP) = .ok (nom, re) ∧
      ∀ i j : ℕ, (i : ℤ) ≤ ⌊mxP⌋ - ⌊mnP⌋ → (j : ℤ) ≤ et - st →
        nom[i]?.bind (fun row => row[j]?) =
          some (if ((⌊mnP⌋ + (i : ℤ) : ℤ) / 100 : ℚ) = 0 then
              p + ac * ((st + (j : ℤ) : ℤ) : ℚ)
            else p * (1 + ((⌊mnP⌋ + (i : ℤ) : ℤ) / 100 : ℚ)) ^ (st + (j : ℤ)) +
              ac * ((1 + ((⌊mnP⌋ + (i : ℤ) : ℤ) / 100 : ℚ)) ^ (st + (j : ℤ)) - 1) /
                (((⌊mnP⌋ + (i : ℤ) : ℤ) / 100 : ℚ) + 1 / 10 ^ 10)) := by
  refine ⟨_, _, HT_ok p ac mnP mxP inflP st et hmn hmx hst hlt hinfl, ?_⟩
  intro i j hij hjj
  rw [grid_getElem? (Hover_Template_1.cellA_nominal p ac) ⌊mnP⌋ (⌊mxP⌋ + 1)
      st (et + 1), if_pos ⟨by omega, by omega⟩, Hover_Template_1.cellA_nominal,
    Hover_Template_1.epsilon]

/-- Witness for C2 over a rate range containing zero. -/
theorem C2_explicit_zero_rate_branch_witness :
    ((0 : ℚ) ≤ 0 ∧ (0 : ℚ) ≤ 1 ∧ (0 : ℤ) ≤ 0 ∧ (0 : ℤ) < 1 ∧
      (0 : ℚ) ≤ Hover_Template_1.pyRound2 0) ∧
    (∃ nom re, Hover_Template_1.generate_graph (some 1000) (some 500) (some 0)
        (some 1) (some 0) (some 1) (some 0) = .ok (nom, re) ∧
      ∀ i j : ℕ, (i : ℤ) ≤ ⌊(1 : ℚ)⌋ - ⌊(0 : ℚ)⌋ → (j : ℤ) ≤ 1 - 0 →
        nom[i]?.bind (fun row => row[j]?) =
          some (if ((⌊(0 : ℚ)⌋ + (i : ℤ) : ℤ) / 100 : ℚ) = 0 then
              1000 + 500 * (((0 : ℤ) + (j : ℤ) : ℤ) : ℚ)
            else 1000 * (1 + ((⌊(0 : ℚ)⌋ + (i : ℤ) : ℤ) / 100 : ℚ)) ^ ((0 : ℤ) + (j : ℤ)) +
              500 * ((1 + ((⌊(0 : ℚ)⌋ + (i : ℤ) : ℤ) / 100 : ℚ)) ^ ((0 : ℤ) + (j : ℤ)) - 1) /
                (((⌊(0 : ℚ)⌋ + (i : ℤ) : ℤ) / 100 : ℚ) + 1 / 10 ^ 10))) :=
  ⟨⟨by norm_num, by norm_num, by decide, by decide,
      by norm_num [Hover_Template_1.pyRound2, Hover_Template_1.pyRound]⟩,
    C2_explicit_zero_rate_branch 1000 500 0 1 0 0 1 (by norm_num) (by norm_num)
      (by decide) (by decide)
      (by norm_num [Hover_Template_1.pyRound2, Hover_Template_1.pyRound])⟩

/-- C3, evaluated: on the zero-rate row with principal 1000 and zero
contribution over years 0..10, the two-input variant yields NaN (none) in
every cell — 0/0 from the unguarded division — instead of 1000, while the
inflation-aware variant yields exactly 1000 everywhere; and with principal
0, contribution 500 over years 0..3 the inflation-aware variant yields
500·T per cell. -/
theorem C3_zero_rate_row_values :
    Financial_Matrix.generate_graph (some 1000) (some 0) (some 0) (some 0)
        (some 0) (some 10) =
      .ok [[none, none, none, none, none, none, none, none, none, none,
        none]] ∧
    Hover_Template_1.generate_graph (some 1000) (some 0) (some 0) (some 0)
        (some 0) (some 10) (some 0) =
      .ok ([[1000, 1000, 1000, 1000, 1000, 1000, 1000, 1000, 1000, 1000,
          1000]],
        [[1000, 1000, 1000, 1000, 1000, 1000, 1000, 1000, 1000, 1000,
          1000]]) ∧
    Hover_Template_1.generate_graph (some 0) (some 500) (some 0) (some 0)
        (some 0) (some 3) (some 0) =
      .ok ([[0, 500, 1000, 1500]], [[0, 500, 1000, 1500]]) := by
  refine ⟨?_, ?_, ?_⟩ <;>
    norm_num [Financial_Matrix.generate_graph,
      Hover_Template_1.generate_graph, Financial_Matrix.cellA,
      Hover_Template_1.cellA_nominal, Hover_Template_1.real_cell,
      Hover_Template_1.pyRound2, Hover_Template_1.pyRound, arange, pyInt,
      fdiv, List.range_succ, zpow_natCast, one_zpow,
      show ((11 : ℤ)).toNat = 11 from rfl,
      show ((1 : ℤ)).toNat = 1 from rfl,
      show ((4 : ℤ)).toNat = 4 from rfl]

/-- C6: on every valid input, each cell of the real grid equals the
corresponding nominal cell divided by (1 + inflationRate)^T, where
inflationRate is the input percentage rounded to 2 decimals then divided by
100 and T is that column's year. -/
theorem C6_real_is_deflated_nominal (p ac mnP mxP inflP : ℚ) (st et : ℤ)
    (hmn : 0 ≤ mnP) (hmx : 0 ≤ mxP) (hst : 0 ≤ st) (hlt : st < et)
    (hinfl : 0 ≤ Hover_Template_1.pyRound2 inflP) :
    ∃ nom re, Hover_Template_1.generate_graph (some p) (some ac) (some mnP)
        (some mxP) (some st) (some et) (some inflP) = .ok (nom, re) ∧
      ∀ i j : ℕ,
        re[i]?.bind (fun row => row[j]?) =
          (nom[i]?.bind (fun row => row[j]?)).map
            (fun a =>
              a / (1 + Hover_Template_1.pyRound2 inflP / 100) ^ (st + (j : ℤ))) := by
  refine ⟨_, _, HT_ok p ac mnP mxP inflP st et hmn hmx hst hlt hinfl, ?_⟩
  intro i j
  rw [grid_getElem?
      (fun R T => Hover_Template_1.real_cell
        (Hover_Template_1.cellA_nominal p ac R T)
        (Hover_Template_1.pyRound2 inflP / 100) T)
      ⌊mnP⌋ (⌊mxP⌋ + 1) st (et + 1),
    grid_getElem? (Hover_Template_1.cellA_nominal p ac)
      ⌊mnP⌋ (⌊mxP⌋ + 1) st (et + 1)]
  by_cases hb : (i : ℤ) < ⌊mxP⌋ + 1 - ⌊mnP⌋ ∧ (j : ℤ) < et + 1 - st
  · rw [if_pos hb, if_pos hb, Option.map_some']
    rfl
  · rw [if_neg hb, if_neg hb]
    rfl

/-- Witness for C6 at the form's default inputs. -/
theorem C6_real_is_deflated_nominal_witness :
    ((0 : ℚ) ≤ 0 ∧ (0 : ℚ) ≤ 15 ∧ (0 : ℤ) ≤ 0 ∧ (0 : ℤ) < 30 ∧
      (0 : ℚ) ≤ Hover_Template_1.pyRound2 (33 / 10)) ∧
    (∃ nom re, Hover_Template_1.generate_graph (some 1000) (some 500)
        (some 0) (some 15) (some 0) (some 30) (some (33 / 10)) =
          .ok (nom, re) ∧
      ∀ i j : ℕ,
        re[i]?.bind (fun row => row[j]?) =
          (nom[i]?.bind (fun row => row[j]?)).map
            (fun a =>
              a / (1 + Hover_Template_1.pyRound2 (33 / 10) / 100) ^
                ((0 : ℤ) + (j : ℤ)))) :=
  ⟨⟨by norm_num, by norm_num, by decide, by decide,
      by norm_num [Hover_Template_1.pyRound2, Hover_Template_1.pyRound]⟩,
    C6_real_is_deflated_nominal 1000 500 0 15 (33 / 10) 0 30 (by norm_num)
      (by norm_num) (by decide) (by decide)
      (by norm_num [Hover_Template_1.pyRound2, Hover_Template_1.pyRound])⟩

/-- C7 counterexample: with principal 0 and contribution 0, inflation 3.3
percent, the nominal cell at year 1 is 0 and the real cell is also 0, so
the real balance is not strictly below the nominal balance even though the
inflation rate and the year are positive. -/
theorem C7_counterexample :
    ∃ nom re, Hover_Template_1.generate_graph (some 0) (some 0) (some 0)
        (some 0) (some 0) (some 1) (some (33 / 10)) = .ok (nom, re) ∧
      0 < Hover_Template_1.pyRound2 (33 / 10) / 100 ∧
      nom[0]?.bind (fun row => row[1]?) = some 0 ∧
      re[0]?.bind (fun row => row[1]?) = some 0 ∧
      ¬ (∀ a b : ℚ, nom[0]?.bind (fun row => row[1]?) = some a →
          re[0]?.bind (fun row => row[1]?) = some b → b < a) := by
  refine ⟨[[0, 0]], [[0, 0]], ?_, ?_, rfl, rfl, ?_⟩
  · norm_num [Hover_Template_1.generate_graph,
      Hover_Template_1.cellA_nominal, Hover_Template_1.real_cell,
      Hover_Template_1.pyRound2, Hover_Template_1.pyRound, arange, pyInt,
      List.range_succ, zpow_natCast,
      show ((2 : ℤ)).toNat = 2 from rfl, show ((1 : ℤ)).toNat = 1 from rfl]
  · norm_num [Hover_Template_1.pyRound2, Hover_Template_1.pyRound]
  · intro hall
    exact absurd (hall 0 0 rfl rfl) (lt_irrefl 0)

/-- C7 (amended): on every valid input, the real grid equals the nominal
grid when the inflation fraction is 0; and when the inflation fraction is
positive, every cell with year T > 0 and positive nominal balance has real
balance strictly below nominal.  (At a cell with nominal balance 0 the two
coincide, and with negative nominal balance the inequality reverses.) -/
theorem C7_inflation_comparison (p ac mnP mxP inflP : ℚ) (st et : ℤ)
    (hmn : 0 ≤ mnP) (hmx : 0 ≤ mxP) (hst : 0 ≤ st) (hlt : st < et)
    (hinfl : 0 ≤ Hover_Template_1.pyRound2 inflP) :
    ∃ nom re, Hover_Template_1.generate_graph (some p) (some ac) (some mnP)
        (some mxP) (some st) (some et) (some inflP) = .ok (nom, re) ∧
      (Hover_Template_1.pyRound2 inflP / 100 = 0 → re = nom) ∧
      (0 < Hover_Template_1.pyRound2 inflP / 100 →
        ∀ i j : ℕ, ∀ a b : ℚ, 0 < st + (j : ℤ) → 0 < a →
          nom[i]?.bind (fun row => row[j]?) = some a →
          re[i]?.bind (fun row => row[j]?) = some b → b < a) := by
  refine ⟨_, _, HT_ok p ac mnP mxP inflP st et hmn hmx hst hlt hinfl,
    ?_, ?_⟩
  · intro h0
    apply List.map_congr_left
    intro R hR
    apply List.map_congr_left
    intro T hT
    rw [h0]
    simp [Hover_Template_1.real_cell]
  · intro hpos i j a b hT ha hnom hre
    rw [grid_getElem? (Hover_Template_1.cellA_nominal p ac)
      ⌊mnP⌋ (⌊mxP⌋ + 1) st (et + 1)] at hnom
    rw [grid_getElem?
      (fun R T => Hover_Template_1.real_cell
        (Hover_Template_1.cellA_nominal p ac R T)
        (Hover_Template_1.pyRound2 inflP / 100) T)
      ⌊mnP⌋ (⌊mxP⌋ + 1) st (et + 1)] at hre
    by_cases hb : (i : ℤ) < ⌊mxP⌋ + 1 - ⌊mnP⌋ ∧ (j : ℤ) < et + 1 - st
    · rw [if_pos hb] at hnom hre
      simp only [Option.some.injEq] at hnom hre
      subst hnom
      subst hre
      have hgt : 1 < (1 + Hover_Template_1.pyRound2 inflP / 100) ^ (st + (j : ℤ)) :=
        one_lt_zpow₀ (by linarith) hT
      exact div_lt_self ha hgt
    · rw [if_neg hb] at hnom
      exact absurd hnom (by simp)

/-- Witness for C7 (amended) at the form's default inputs. -/
theorem C7_inflation_comparison_witness :
    ((0 : ℚ) ≤ 0 ∧ (0 : ℚ) ≤ 15 ∧ (0 : ℤ) ≤ 0 ∧ (0 : ℤ) < 30 ∧
      (0 : ℚ) ≤ Hover_Template_1.pyRound2 (33 / 10)) ∧
    (∃ nom re, Hover_Template_1.generate_graph (some 1000) (some 500)
        (some 0) (some 15) (some 0) (some 30) (some (33 / 10)) =
          .ok (nom, re) ∧
      (Hover_Template_1.pyRound2 (33 / 10) / 100 = 0 → re = nom) ∧
      (0 < Hover_Template_1.pyRound2 (33 / 10) / 100 →
        ∀ i j : ℕ, ∀ a b : ℚ, 0 < (0 : ℤ) + (j : ℤ) → 0 < a →
          nom[i]?.bind (fun row => row[j]?) = some a →
          re[i]?.bind (fun row => row[j]?) = some b → b < a)) :=
  ⟨⟨by norm_num, by norm_num, by decide, by decide,
      by norm_num [Hover_Template_1.pyRound2, Hover_Template_1.pyRound]⟩,
    C7_inflation_comparison 1000 500 0 15 (33 / 10) 0 30 (by norm_num)
      (by norm_num) (by decide) (by decide)
      (by norm_num [Hover_Template_1.pyRound2, Hover_Template_1.pyRound])⟩

/-- The compound-interest-with-contributions value is non-decreasing in the
year for a rate above -1 (so a growing factor at least 1), nonnegative
principal and contribution, and a positive denominator. -/
lemma compound_mono (p ac R den : ℚ) (hp : 0 ≤ p) (hac : 0 ≤ ac)
    (hR1 : 1 ≤ 1 + R) (hden : 0 < den) {T1 T2 : ℤ} (h : T1 ≤ T2) :
    p * (1 + R) ^ T1 + ac * ((1 + R) ^ T1 - 1) / den ≤
      p * (1 + R) ^ T2 + ac * ((1 + R) ^ T2 - 1) / den := by
  have hx : (1 + R) ^ T1 ≤ (1 + R) ^ T2 := zpow_le_zpow_right₀ hR1 h
  have h1 : p * (1 + R) ^ T1 ≤ p * (1 + R) ^ T2 :=
    mul_le_mul_of_nonneg_left hx hp
  have h2 : ac * ((1 + R) ^ T1 - 1) ≤ ac * ((1 + R) ^ T2 - 1) :=
    mul_le_mul_of_nonneg_left (by linarith) hac
  have h3 := (div_le_div_iff_of_pos_right hden).2 h2
  linarith

/-- C8: on every valid input with nonnegative principal and contribution,
along any grid row whose rate is positive the nominal balance is
non-decreasing in the year, in both variants. -/
theorem C8_row_monotone (p ac mnP mxP inflP : ℚ) (st et : ℤ)
    (hp : 0 ≤ p) (hac : 0 ≤ ac) (hmn : 0 ≤ mnP) (hmx : 0 ≤ mxP)
    (hst : 0 ≤ st) (hlt : st < et)
    (hinfl : 0 ≤ Hover_Template_1.pyRound2 inflP) :
    ∃ g nom re,
      Financial_Matrix.generate_graph (some p) (some ac) (some mnP)
        (some mxP) (some st) (some et) = .ok g ∧
      Hover_Template_1.generate_graph (some p) (some ac) (some mnP)
        (some mxP) (some st) (some et) (some inflP) = .ok (nom, re) ∧
      ∀ i j k : ℕ, j ≤ k → 0 < ((⌊mnP⌋ + (i : ℤ) : ℤ) / 100 : ℚ) →
        (∀ a b : ℚ, g[i]?.bind (fun row => row[j]?) = some (some a) →
          g[i]?.bind (fun row => row[k]?) = some (some b) → a ≤ b) ∧
        (∀ a b : ℚ, nom[i]?.bind (fun row => row[j]?) = some a →
          nom[i]?.bind (fun row => row[k]?) = some b → a ≤ b) := by
  refine ⟨_, _, _, FM_ok p ac mnP mxP st et hmn hmx hst hlt,
    HT_ok p ac mnP mxP inflP st et hmn hmx hst hlt hinfl, ?_⟩
  intro i j k hjk hRpos
  have hRne : ((⌊mnP⌋ + (i : ℤ) : ℤ) / 100 : ℚ) ≠ 0 := ne_of_gt hRpos
  have hR1 : 1 ≤ 1 + ((⌊mnP⌋ + (i : ℤ) : ℤ) / 100 : ℚ) := by linarith
  constructor
  · intro a b hA hB
    rw [grid_getElem? (Financial_Matrix.cellA p ac)
      ⌊mnP⌋ (⌊mxP⌋ + 1) st (et + 1)] at hA hB
    by_cases hbj : (i : ℤ) < ⌊mxP⌋ + 1 - ⌊mnP⌋ ∧ (j : ℤ) < et + 1 - st
    · by_cases hbk : (i : ℤ) < ⌊mxP⌋ + 1 - ⌊mnP⌋ ∧ (k : ℤ) < et + 1 - st
      · rw [if_pos hbj, Financial_Matrix.cellA, fdiv, if_neg hRne] at hA
        rw [if_pos hbk, Financial_Matrix.cellA, fdiv, if_neg hRne] at hB
        simp only [Option.map_some', Option.some.injEq] at hA hB
        subst hA
        subst hB
        rw [← mul_div_assoc, ← mul_div_assoc]
        exact compound_mono p ac _ _ hp hac hR1 hRpos (by omega)
      · rw [if_neg hbk] at hB
        exact absurd hB (by simp)
    · rw [if_neg hbj] at hA
      exact absurd hA (by simp)
  · intro a b hA hB
    rw [grid_getElem? (Hover_Template_1.cellA_nominal p ac)
      ⌊mnP⌋ (⌊mxP⌋ + 1) st (et + 1)] at hA hB
    by_cases hbj : (i : ℤ) < ⌊mxP⌋ + 1 - ⌊mnP⌋ ∧ (j : ℤ) < et + 1 - st
    · by_cases hbk : (i : ℤ) < ⌊mxP⌋ + 1 - ⌊mnP⌋ ∧ (k : ℤ) < et + 1 - st
      · rw [if_pos hbj, Hover_Template_1.cellA_nominal, if_neg hRne] at hA
        rw [if_pos hbk, Hover_Template_1.cellA_nominal, if_neg hRne] at hB
        simp only [Option.some.injEq] at hA hB
        subst hA
        subst hB
        have hden : 0 < ((⌊mnP⌋ + (i : ℤ) : ℤ) / 100 : ℚ) +
            Hover_Template_1.epsilon := by
          have : (0 : ℚ) < Hover_Template_1.epsilon := by
            norm_num [Hover_Template_1.epsilon]
          linarith
        exact compound_mono p ac _ _ hp hac hR1 hden (by omega)
      · rw [if_neg hbk] at hB
        exact absurd hB (by simp)
    · rw [if_neg hbj] at hA
      exact absurd hA (by simp)

/-- Witness for C8 at the form's default inputs. -/
theorem C8_row_monotone_witness :
    ((0 : ℚ) ≤ 1000 ∧ (0 : ℚ) ≤ 500 ∧ (0 : ℚ) ≤ 0 ∧ (0 : ℚ) ≤ 15 ∧
      (0 : ℤ) ≤ 0 ∧ (0 : ℤ) < 30 ∧
      (0 : ℚ) ≤ Hover_Template_1.pyRound2 (33 / 10)) ∧
    (∃ g nom re,
      Financial_Matrix.generate_graph (some 1000) (some 500) (some 0)
        (some 15) (some 0) (some 30) = .ok g ∧
      Hover_Template_1.generate_graph (some 1000) (some 500) (some 0)
        (some 15) (some 0) (some 30) (some (33 / 10)) = .ok (nom, re) ∧
      ∀ i j k : ℕ, j ≤ k → 0 < ((⌊(0 : ℚ)⌋ + (i : ℤ) : ℤ) / 100 : ℚ) →
        (∀ a b : ℚ, g[i]?.bind (fun row => row[j]?) = some (some a) →
          g[i]?.bind (fun row => row[k]?) = some (some b) → a ≤ b) ∧
        (∀ a b : ℚ, nom[i]?.bind (fun row => row[j]?) = some a →
          nom[i]?.bind (fun row => row[k]?) = some b → a ≤ b)) :=
  ⟨⟨by norm_num, by norm_num, by norm_num, by norm_num, by decide,
      by decide,
      by norm_num [Hover_Template_1.pyRound2, Hover_Template_1.pyRound]⟩,
    C8_row_monotone 1000 500 0 15 (33 / 10) 0 30 (by norm_num) (by norm_num)
      (by norm_num) (by norm_num) (by decide) (by decide)
      (by norm_num [Hover_Template_1.pyRound2, Hover_Template_1.pyRound])⟩
